import Mathlib

/-!
# Logging facade `utils/logger.h`

A shallow embedding of the preprocessor-selected logging facade of
`src/components/include/utils/logger.h`.

* A stream insertion `accumulator << v` appends the rendering of `v` to a
  string buffer.
* The header only declares `push_log`, `time_now`, `logs_enabled` and
  `set_logs_enabled`; their bodies live in other translation units.  Here
  `push_log` is a recording double: it appends its arguments to the list
  `World.calls` and answers with a caller-chosen boolean.
* Each `#define` of the header is one Lean definition with the same name,
  placed in a namespace per preprocessor branch (`Log4cxx` for the
  `OS_POSIX` dispatch block, `WinNative`, `QtPort`, and `LogOff` for the
  branch taken when `ENABLE_LOG` is undefined).
-/

namespace logger

/-! ## Streamed values -/

/-- Values a caller may stream into a log event.  Floating point values and
stream manipulators are left out. -/
inductive Value where
  | str (s : String)
  | int (i : Int)
  | uint (n : Nat)
  | chr (c : Char)
  | bool (b : Bool)
  deriving DecidableEq, Repr

/-- Text that `operator<<` writes for a value on a default-flag stream:
strings verbatim, integers as decimal numerals, `bool` as `1` or `0`. -/
def Value.render : Value → String
  | .str s => s
  | .int i => toString i
  | .uint n => toString n
  | .chr c => String.singleton c
  | .bool b => if b then "1" else "0"

/-- One insertion `accumulator << v` on a `std::stringstream` buffer. -/
def insert (accumulator : String) (v : Value) : String :=
  accumulator ++ v.render

/-- The chain `accumulator << v1 << v2 << ... << vn`, evaluated left to
right. -/
def stream (accumulator : String) (logEvent : List Value) : String :=
  logEvent.foldl insert accumulator

/-- Concatenation of the renderings of a value sequence in order, with
nothing between them: the message the specification asks for. -/
def concatRenderings : List Value → String
  | [] => ""
  | v :: vs => v.render ++ concatRenderings vs

/-! ## Data model -/

/-- Expansion of `__FILE__`, `__LINE__` and `__FUNCTION__` at the place where
a facade definition is used; also what `LOG4CXX_LOCATION` packs. -/
structure CallSite where
  file : String
  line : Nat
  function : String
  deriving DecidableEq, Repr

/-- The named severities of the facade, one per `LOG4CXX_<L>` definition. -/
inductive LogLevel where
  | TRACE | DEBUG | INFO | WARN | ERROR | FATAL
  deriving DecidableEq, Repr

/-- Modelled from the spec: the order of `LogLevel` is absent from the
header; section 3 gives the ordered enumeration TRACE, DEBUG, INFO, WARN,
ERROR, FATAL. -/
def LogLevel.enumeration : List LogLevel :=
  [.TRACE, .DEBUG, .INFO, .WARN, .ERROR, .FATAL]

/-- Modelled from the spec: position of a level in the ordered enumeration
of section 3; `a` is below `b` when `a.rank < b.rank`. -/
def LogLevel.rank (L : LogLevel) : Nat :=
  LogLevel.enumeration.indexOf L

/-- Result of `::log4cxx::Level::getTrace()` ... `getFatal()`: the symbolic
level objects of the log4cxx library. -/
inductive Level where
  | getTrace | getDebug | getInfo | getWarn | getError | getFatal
  deriving DecidableEq, Repr

/-- Argument list of one `logger::push_log` call.  The three dispatch
blocks declare three different signatures; a `log4cxx::LoggerPtr` is
represented by the name it was created from, time stamps by a natural
number. -/
inductive PushCall where
  | log4cxx (logger : String) (level : Level) (entry : String)
      (timeStamp : Nat) (location : CallSite) (threadName : String)
  | win (logger : String) (level : Nat) (time : Nat) (entry : String)
  | qt (logger : String) (level : Nat) (entry : String) (file : String)
      (line : Nat)
  deriving DecidableEq, Repr

/-- The `logger` argument of a call. -/
def PushCall.logger : PushCall → String
  | .log4cxx l _ _ _ _ _ => l
  | .win l _ _ _ => l
  | .qt l _ _ _ _ => l

/-- The `entry` argument of a call: the message string handed over. -/
def PushCall.entry : PushCall → String
  | .log4cxx _ _ e _ _ _ => e
  | .win _ _ _ e => e
  | .qt _ _ e _ _ => e

/-- The integer `level` argument of a call, when the signature has one. -/
def PushCall.code : PushCall → Option Nat
  | .log4cxx _ _ _ _ _ _ => none
  | .win _ l _ _ => some l
  | .qt _ l _ _ _ => some l

/-- Process state the facade reads or writes. -/
structure World where
  /-- The flag behind `logs_enabled()`. -/
  enabled : Bool
  /-- The process-global `errno`. -/
  errno : Int
  /-- How many readings `time_now()` has handed out. -/
  ticks : Nat
  /-- Every `push_log` call so far, oldest first. -/
  calls : List PushCall
  deriving DecidableEq, Repr

/-- Collaborators outside the header, taken as parameters. -/
structure Env where
  /-- Successive readings of the backend clock. -/
  clock : Nat → Nat
  /-- Result of `LoggingEvent::getCurrentThreadName()`. -/
  threadName : String
  /-- The boolean `push_log` answers with. -/
  pushResult : PushCall → Bool
  /-- The C library's `strerror`. -/
  strerror : Int → String
  /-- Result of `logger->isTraceEnabled()` in log4cxx. -/
  isTraceEnabled : String → Bool

/-- Modelled from the spec: the body of `logs_enabled` is absent from the
header; section 4.1 says it reads the stored process-wide flag. -/
def logs_enabled (w : World) : Bool :=
  w.enabled

/-- Modelled from the spec: the body of `set_logs_enabled` is absent from
the header; section 4.1 says it has no effect beyond the stored flag. -/
def set_logs_enabled (state : Bool) (w : World) : World :=
  { w with enabled := state }

/-- Modelled from the spec: the body of `push_log` is absent from the
header; section 8 asks for a recording adapter double, which notes the call
and returns the backend's boolean answer. -/
def push_log (env : Env) (c : PushCall) (w : World) : Bool × World :=
  (env.pushResult c, { w with calls := w.calls ++ [c] })

/-- Modelled from the spec: the body of `time_now` is absent from the
header; section 2 says it returns a time stamp for the event.  Each call
takes the next reading of the clock. -/
def time_now (env : Env) (w : World) : Nat × World :=
  (env.clock w.ticks, { w with ticks := w.ticks + 1 })

/-! ## `OS_POSIX` dispatch block (log4cxx), header lines 83 to 128 -/

namespace Log4cxx

/-- Definition `LOG_WITH_LEVEL(loggerPtr, logLevel, logEvent)`: stream the event into
a fresh accumulator, read the clock, call `push_log`, drop its result. -/
def LOG_WITH_LEVEL (env : Env) (site : CallSite) (loggerPtr : String)
    (logLevel : Level) (logEvent : List Value) (w : World) : World :=
  let accumulator := stream "" logEvent
  let t := time_now env w
  (push_log env
    (.log4cxx loggerPtr logLevel accumulator t.1 site env.threadName) t.2).2

def LOG4CXX_TRACE (env : Env) (site : CallSite) (loggerPtr : String)
    (logEvent : List Value) : World → World :=
  LOG_WITH_LEVEL env site loggerPtr Level.getTrace logEvent

def LOG4CXX_DEBUG (env : Env) (site : CallSite) (loggerPtr : String)
    (logEvent : List Value) : World → World :=
  LOG_WITH_LEVEL env site loggerPtr Level.getDebug logEvent

def LOG4CXX_INFO (env : Env) (site : CallSite) (loggerPtr : String)
    (logEvent : List Value) : World → World :=
  LOG_WITH_LEVEL env site loggerPtr Level.getInfo logEvent

def LOG4CXX_WARN (env : Env) (site : CallSite) (loggerPtr : String)
    (logEvent : List Value) : World → World :=
  LOG_WITH_LEVEL env site loggerPtr Level.getWarn logEvent

def LOG4CXX_ERROR (env : Env) (site : CallSite) (loggerPtr : String)
    (logEvent : List Value) : World → World :=
  LOG_WITH_LEVEL env site loggerPtr Level.getError logEvent

def LOG4CXX_FATAL (env : Env) (site : CallSite) (loggerPtr : String)
    (logEvent : List Value) : World → World :=
  LOG_WITH_LEVEL env site loggerPtr Level.getFatal logEvent

/-- Definition `LOG4CXX_IS_TRACE_ENABLED(logger)` is `logger->isTraceEnabled()`. -/
def LOG4CXX_IS_TRACE_ENABLED (env : Env) (logger : String) : Option Bool :=
  some (env.isTraceEnabled logger)

end Log4cxx

/-! ## `WIN_NATIVE` dispatch block, header lines 130 to 202 -/

namespace WinNative

/-- Definition `LOG_WITH_LEVEL(loggerPtr, logLevel, logEvent, line)`: the accumulator
first receives `__FILE__ << ":" << line << " " << __FUNCTION__ << ": "`,
then the event. -/
def LOG_WITH_LEVEL (env : Env) (site : CallSite) (loggerPtr : String)
    (logLevel : Nat) (logEvent : List Value) (line : Nat) (w : World) :
    World :=
  let accumulator := stream ""
    ([.str site.file, .str ":", .uint line, .str " ", .str site.function,
      .str ": "] ++ logEvent)
  let t := time_now env w
  (push_log env (.win loggerPtr logLevel t.1 accumulator) t.2).2

/-- Definition `LOG_WITH_LEVEL_EXT(loggerPtr, logLevel, logEvent, line, file,
function)`: as `LOG_WITH_LEVEL`, with the location given by the caller. -/
def LOG_WITH_LEVEL_EXT (env : Env) (loggerPtr : String) (logLevel : Nat)
    (logEvent : List Value) (line : Nat) (file : String) (function : String)
    (w : World) : World :=
  let accumulator := stream ""
    ([.str file, .str ":", .uint line, .str " ", .str function, .str ": "]
      ++ logEvent)
  let t := time_now env w
  (push_log env (.win loggerPtr logLevel t.1 accumulator) t.2).2

/-- Data members of `class AutoTrace`. -/
structure AutoTrace where
  logger_ptr_ : String
  line_number_ : Nat
  file_name_ : String
  function_name_ : String
  deriving DecidableEq, Repr

/-- Constructor `AutoTrace(logger_ptr, line_number, file_name,
function_name)`: initialise the members, then log `"Enter"` at level 0. -/
def AutoTrace.ctor (env : Env) (logger_ptr : String) (line_number : Nat)
    (file_name : String) (function_name : String) (w : World) :
    AutoTrace × World :=
  let self : AutoTrace := ⟨logger_ptr, line_number, file_name, function_name⟩
  (self, LOG_WITH_LEVEL_EXT env self.logger_ptr_ 0 [.str "Enter"]
    self.line_number_ self.file_name_ self.function_name_ w)

/-- Destructor `~AutoTrace()`: log `"Exit"` at level 0 from the members. -/
def AutoTrace.dtor (env : Env) (self : AutoTrace) (w : World) : World :=
  LOG_WITH_LEVEL_EXT env self.logger_ptr_ 0 [.str "Exit"]
    self.line_number_ self.file_name_ self.function_name_ w

/-- Definition `LOG4CXX_IS_TRACE_ENABLED(logger)` is the literal `true`. -/
def LOG4CXX_IS_TRACE_ENABLED (_logger : String) : Option Bool :=
  some true

def LOG4CXX_TRACE (env : Env) (site : CallSite) (loggerPtr : String)
    (logEvent : List Value) : World → World :=
  LOG_WITH_LEVEL env site loggerPtr 0 logEvent site.line

/-- Definition `LOG4CXX_AUTO_TRACE(loggerPtr)` declares
`logger::AutoTrace auto_trace(loggerPtr, __LINE__, __FILE__, __FUNCTION__)`. -/
def LOG4CXX_AUTO_TRACE (env : Env) (site : CallSite) (loggerPtr : String)
    (w : World) : Option AutoTrace × World :=
  let r := AutoTrace.ctor env loggerPtr site.line site.file site.function w
  (some r.1, r.2)

def LOG4CXX_DEBUG (env : Env) (site : CallSite) (loggerPtr : String)
    (logEvent : List Value) : World → World :=
  LOG_WITH_LEVEL env site loggerPtr 1 logEvent site.line

def LOG4CXX_INFO (env : Env) (site : CallSite) (loggerPtr : String)
    (logEvent : List Value) : World → World :=
  LOG_WITH_LEVEL env site loggerPtr 2 logEvent site.line

def LOG4CXX_WARN (env : Env) (site : CallSite) (loggerPtr : String)
    (logEvent : List Value) : World → World :=
  LOG_WITH_LEVEL env site loggerPtr 3 logEvent site.line

def LOG4CXX_ERROR (env : Env) (site : CallSite) (loggerPtr : String)
    (logEvent : List Value) : World → World :=
  LOG_WITH_LEVEL env site loggerPtr 4 logEvent site.line

def LOG4CXX_FATAL (env : Env) (site : CallSite) (loggerPtr : String)
    (logEvent : List Value) : World → World :=
  LOG_WITH_LEVEL env site loggerPtr 5 logEvent site.line

end WinNative

/-! ## `QT_PORT` dispatch block, header lines 204 to 251 -/

namespace QtPort

/-- Definition `LOG4CXX_IS_TRACE_ENABLED(logger)` has an empty replacement list: the
expansion holds no expression, which `none` stands for. -/
def LOG4CXX_IS_TRACE_ENABLED (_logger : String) : Option Bool :=
  none

/-- Definition `LOG_WITH_LEVEL(loggerPtr, logLevel, logEvent, file, line)`: stream the
event, call `push_log` with the file and line, drop its result.  No clock
reading is taken. -/
def LOG_WITH_LEVEL (env : Env) (loggerPtr : String) (logLevel : Nat)
    (logEvent : List Value) (file : String) (line : Nat) (w : World) :
    World :=
  let accumulator := stream "" logEvent
  (push_log env (.qt loggerPtr logLevel accumulator file line) w).2

def LOG4CXX_TRACE (env : Env) (site : CallSite) (loggerPtr : String)
    (logEvent : List Value) : World → World :=
  LOG_WITH_LEVEL env loggerPtr 0 logEvent site.file site.line

/-- Definition `LOG4CXX_AUTO_TRACE_WITH_NAME_SPECIFIED(loggerPtr, auto_trace)` has an
empty replacement list: no object is declared. -/
def LOG4CXX_AUTO_TRACE_WITH_NAME_SPECIFIED (_loggerPtr : String)
    (_auto_trace : String) (w : World) :
    Option WinNative.AutoTrace × World :=
  (none, w)

/-- Definition `LOG4CXX_AUTO_TRACE(loggerPtr)` has an empty replacement list. -/
def LOG4CXX_AUTO_TRACE (_loggerPtr : String) (w : World) :
    Option WinNative.AutoTrace × World :=
  (none, w)

def LOG4CXX_DEBUG (env : Env) (site : CallSite) (loggerPtr : String)
    (logEvent : List Value) : World → World :=
  LOG_WITH_LEVEL env loggerPtr 1 logEvent site.file site.line

def LOG4CXX_INFO (env : Env) (site : CallSite) (loggerPtr : String)
    (logEvent : List Value) : World → World :=
  LOG_WITH_LEVEL env loggerPtr 2 logEvent site.file site.line

def LOG4CXX_WARN (env : Env) (site : CallSite) (loggerPtr : String)
    (logEvent : List Value) : World → World :=
  LOG_WITH_LEVEL env loggerPtr 3 logEvent site.file site.line

def LOG4CXX_ERROR (env : Env) (site : CallSite) (loggerPtr : String)
    (logEvent : List Value) : World → World :=
  LOG_WITH_LEVEL env loggerPtr 4 logEvent site.file site.line

def LOG4CXX_FATAL (env : Env) (site : CallSite) (loggerPtr : String)
    (logEvent : List Value) : World → World :=
  LOG_WITH_LEVEL env loggerPtr 5 logEvent site.file site.line

end QtPort

/-! ## `ENABLE_LOG` undefined, header lines 255 to 288 -/

namespace LogOff

/-- Definition `LOG4CXX_IS_TRACE_ENABLED(logger)` is the literal `false`. -/
def LOG4CXX_IS_TRACE_ENABLED (_logger : String) : Option Bool :=
  some false

def LOG4CXX_TRACE (_x : String) (_y : List Value) (w : World) : World := w

def LOG4CXX_AUTO_TRACE_WITH_NAME_SPECIFIED (_loggerPtr : String)
    (_auto_trace : String) (w : World) :
    Option WinNative.AutoTrace × World :=
  (none, w)

def LOG4CXX_AUTO_TRACE (_loggerPtr : String) (w : World) :
    Option WinNative.AutoTrace × World :=
  (none, w)

def LOG4CXX_DEBUG (_x : String) (_y : List Value) (w : World) : World := w

def LOG4CXX_INFO (_x : String) (_y : List Value) (w : World) : World := w

def LOG4CXX_WARN (_x : String) (_y : List Value) (w : World) : World := w

def LOG4CXX_ERROR (_x : String) (_y : List Value) (w : World) : World := w

def LOG4CXX_ERROR_WITH_ERRNO (_x : String) (_y : List Value) (w : World) :
    World := w

def LOG4CXX_WARN_WITH_ERRNO (_x : String) (_y : List Value) (w : World) :
    World := w

def LOG4CXX_FATAL (_x : String) (_y : List Value) (w : World) : World := w

end LogOff

/-! ## Dispatch over the selected block -/

/-- The three dispatch blocks that exist when `ENABLE_LOG` is defined. -/
inductive Backend where
  | log4cxx | winNative | qtPort
  deriving DecidableEq, Repr

/-- What a translation unit sees: one dispatch block, or the empty
definitions of the branch without `ENABLE_LOG`. -/
inductive Build where
  | withLog (b : Backend)
  | logOff
  deriving DecidableEq, Repr

/-- The definition `LOG4CXX_<L>` of block `b`, used at `site`. -/
def LOG4CXX (b : Backend) (L : LogLevel) (env : Env) (site : CallSite)
    (loggerPtr : String) (logEvent : List Value) : World → World :=
  match b, L with
  | .log4cxx, .TRACE => Log4cxx.LOG4CXX_TRACE env site loggerPtr logEvent
  | .log4cxx, .DEBUG => Log4cxx.LOG4CXX_DEBUG env site loggerPtr logEvent
  | .log4cxx, .INFO => Log4cxx.LOG4CXX_INFO env site loggerPtr logEvent
  | .log4cxx, .WARN => Log4cxx.LOG4CXX_WARN env site loggerPtr logEvent
  | .log4cxx, .ERROR => Log4cxx.LOG4CXX_ERROR env site loggerPtr logEvent
  | .log4cxx, .FATAL => Log4cxx.LOG4CXX_FATAL env site loggerPtr logEvent
  | .winNative, .TRACE => WinNative.LOG4CXX_TRACE env site loggerPtr logEvent
  | .winNative, .DEBUG => WinNative.LOG4CXX_DEBUG env site loggerPtr logEvent
  | .winNative, .INFO => WinNative.LOG4CXX_INFO env site loggerPtr logEvent
  | .winNative, .WARN => WinNative.LOG4CXX_WARN env site loggerPtr logEvent
  | .winNative, .ERROR => WinNative.LOG4CXX_ERROR env site loggerPtr logEvent
  | .winNative, .FATAL => WinNative.LOG4CXX_FATAL env site loggerPtr logEvent
  | .qtPort, .TRACE => QtPort.LOG4CXX_TRACE env site loggerPtr logEvent
  | .qtPort, .DEBUG => QtPort.LOG4CXX_DEBUG env site loggerPtr logEvent
  | .qtPort, .INFO => QtPort.LOG4CXX_INFO env site loggerPtr logEvent
  | .qtPort, .WARN => QtPort.LOG4CXX_WARN env site loggerPtr logEvent
  | .qtPort, .ERROR => QtPort.LOG4CXX_ERROR env site loggerPtr logEvent
  | .qtPort, .FATAL => QtPort.LOG4CXX_FATAL env site loggerPtr logEvent

/-- The definition `LOG4CXX_<L>` without `ENABLE_LOG`: every one is empty. -/
def LogOff.LOG4CXX (L : LogLevel) (x : String) (y : List Value) :
    World → World :=
  match L with
  | .TRACE => LogOff.LOG4CXX_TRACE x y
  | .DEBUG => LogOff.LOG4CXX_DEBUG x y
  | .INFO => LogOff.LOG4CXX_INFO x y
  | .WARN => LogOff.LOG4CXX_WARN x y
  | .ERROR => LogOff.LOG4CXX_ERROR x y
  | .FATAL => LogOff.LOG4CXX_FATAL x y

/-- The definition `LOG4CXX_<L>` a translation unit of build `b` gets. -/
def Build.LOG4CXX (b : Build) (L : LogLevel) (env : Env) (site : CallSite)
    (loggerPtr : String) (logEvent : List Value) : World → World :=
  match b with
  | .withLog k => logger.LOG4CXX k L env site loggerPtr logEvent
  | .logOff => LogOff.LOG4CXX L loggerPtr logEvent

/-- Definition `LOG4CXX_ERROR_WITH_ERRNO(logger, message)`, header line 77: the event
`message << ", error code " << errno << " (" << strerror(errno) << ")"`
given to `LOG4CXX_ERROR`.  Stream insertions leave `errno` alone, so both
reads see the value current when the statement starts. -/
def LOG4CXX_ERROR_WITH_ERRNO (b : Backend) (env : Env) (site : CallSite)
    (loggerPtr : String) (message : List Value) (w : World) : World :=
  LOG4CXX b .ERROR env site loggerPtr
    (message ++ [.str ", error code ", .int w.errno, .str " (",
      .str (env.strerror w.errno), .str ")"]) w

/-- Definition `LOG4CXX_WARN_WITH_ERRNO(logger, message)`, header line 80. -/
def LOG4CXX_WARN_WITH_ERRNO (b : Backend) (env : Env) (site : CallSite)
    (loggerPtr : String) (message : List Value) (w : World) : World :=
  LOG4CXX b .WARN env site loggerPtr
    (message ++ [.str ", error code ", .int w.errno, .str " (",
      .str (env.strerror w.errno), .str ")"]) w

/-- Definition `LOG4CXX_IS_TRACE_ENABLED(logger)` as build `b` defines it; `none` when
the replacement list is empty. -/
def LOG4CXX_IS_TRACE_ENABLED (env : Env) (b : Build) (logger : String) :
    Option Bool :=
  match b with
  | .withLog .log4cxx => Log4cxx.LOG4CXX_IS_TRACE_ENABLED env logger
  | .withLog .winNative => WinNative.LOG4CXX_IS_TRACE_ENABLED logger
  | .withLog .qtPort => QtPort.LOG4CXX_IS_TRACE_ENABLED logger
  | .logOff => LogOff.LOG4CXX_IS_TRACE_ENABLED logger

/-- The log4cxx level object that `LOG4CXX_<L>` names in the `OS_POSIX`
block. -/
def LogLevel.symbol : LogLevel → Level
  | .TRACE => .getTrace
  | .DEBUG => .getDebug
  | .INFO => .getInfo
  | .WARN => .getWarn
  | .ERROR => .getError
  | .FATAL => .getFatal

/-- Modelled from the spec: reading a symbolic level back as a `LogLevel`
is absent from the header; each `Level::get<L>()` stands for level `L`. -/
def Level.named : Level → LogLevel
  | .getTrace => .TRACE
  | .getDebug => .DEBUG
  | .getInfo => .INFO
  | .getWarn => .WARN
  | .getError => .ERROR
  | .getFatal => .FATAL

/-- Modelled from the spec: the level a call carries.  Section 4.5 reads an
integer code as a position in the enumeration (0 is trace, 5 is fatal). -/
def PushCall.named (c : PushCall) : Option LogLevel :=
  match c with
  | .log4cxx _ l _ _ _ _ => some l.named
  | .win _ n _ _ => LogLevel.enumeration.get? n
  | .qt _ n _ _ _ => LogLevel.enumeration.get? n

/-- Integer level argument of the most recent `push_log` call. -/
def lastCode (w : World) : Option Nat :=
  w.calls.getLast?.bind PushCall.code

/-- Text the `WIN_NATIVE` block streams ahead of the event; the other two
blocks stream nothing ahead of it. -/
def locationTag (b : Backend) (site : CallSite) : String :=
  match b with
  | .winNative =>
      site.file ++ ":" ++ toString site.line ++ " " ++ site.function ++ ": "
  | .log4cxx => ""
  | .qtPort => ""

/-! ## Scopes -/

/-- Statements of a scope body: a level definition used at some place, a
call of `set_logs_enabled`, an early `return`, a `throw`. -/
inductive Stmt where
  | log (L : LogLevel) (site : CallSite) (loggerPtr : String)
      (logEvent : List Value)
  | setEnabled (state : Bool)
  | ret
  | throw
  deriving DecidableEq, Repr

/-- How control left a scope. -/
inductive ExitKind where
  | normal | earlyReturn | unwound
  deriving DecidableEq, Repr

/-- Run the statements of a body in order; `return` and `throw` leave the
scope at once. -/
def execBody (env : Env) (b : Build) : List Stmt → World → ExitKind × World
  | [], w => (.normal, w)
  | .log L site loggerPtr logEvent :: rest, w =>
      execBody env b rest (b.LOG4CXX L env site loggerPtr logEvent w)
  | .setEnabled state :: rest, w => execBody env b rest (set_logs_enabled state w)
  | .ret :: _, w => (.earlyReturn, w)
  | .throw :: _, w => (.unwound, w)

/-- End of the enclosing block: a declared `AutoTrace` object is destroyed
on every way out; without an object nothing runs. -/
def leaveScope (env : Env) (obj : Option WinNative.AutoTrace) (w : World) :
    World :=
  match obj with
  | some a => WinNative.AutoTrace.dtor env a w
  | none => w

/-- A block that starts with an auto-trace declaration (`declare`, the
expansion of one of the `LOG4CXX_AUTO_TRACE...` definitions) followed by
`body`.  The exit kind of the body is handed on to the caller. -/
def runScope (env : Env) (b : Build)
    (declare : World → Option WinNative.AutoTrace × World) (body : List Stmt)
    (w : World) : ExitKind × World :=
  let d := declare w
  let r := execBody env b body d.2
  (r.1, leaveScope env d.1 r.2)

/-! ## Preprocessor selection -/

/-- Truth assignment to the configuration names the header tests. -/
structure Config where
  ENABLE_LOG : Bool
  LOG4CXX_LOGGER : Bool
  WIN_NATIVE : Bool
  QT_PORT : Bool
  OS_POSIX : Bool
  deriving DecidableEq, Repr

/-- Backend headers pulled in by the include block. -/
inductive Headers where
  | log4cxx | windows | qt
  deriving DecidableEq, Repr

/-- Outcome of the include block, header lines 42 to 51. -/
inductive IncludeResult where
  | headers (h : Headers)
  | unsupported (msg : String)
  deriving DecidableEq, Repr

/-- An `#if` / `#elif` chain: the group of the first true condition. -/
def firstTaken {α : Type} : List (Bool × α) → Option α
  | [] => none
  | (c, a) :: rest => if c then some a else firstTaken rest

/-- Include block: `#if defined(LOG4CXX_LOGGER)`, `#elif defined(WIN_NATIVE)`,
`#elif defined(QT_PORT)`, `#else #error`. -/
def includeBlock (c : Config) : IncludeResult :=
  match firstTaken [(c.LOG4CXX_LOGGER, Headers.log4cxx),
      (c.WIN_NATIVE, Headers.windows), (c.QT_PORT, Headers.qt)] with
  | some h => .headers h
  | none => .unsupported "Unsupported case for logging includes"

/-- Dispatch chain: `#if defined(OS_POSIX)`, `#elif defined(WIN_NATIVE)`,
`#elif defined(QT_PORT)`, `#endif`, with no `#else`. -/
def dispatchBlock (c : Config) : Option Backend :=
  firstTaken [(c.OS_POSIX, Backend.log4cxx), (c.WIN_NATIVE, Backend.winNative),
    (c.QT_PORT, Backend.qtPort)]

/-- What the header leaves of itself for one configuration: a stop at the
`#error`, or the included backend headers together with the `LOG4CXX_<L>`
definitions in force (`none` when no group of the dispatch chain is taken,
so that no definition of the facade is made). -/
inductive Preprocessed where
  | stopped (msg : String)
  | passed (headers : Option Headers) (dispatch : Option Build)
  deriving DecidableEq, Repr

/-- The whole header, lines 35 to 290: inside `#ifdef ENABLE_LOG` the include
block and then the dispatch chain, in the `#else` the empty definitions. -/
def preprocess (c : Config) : Preprocessed :=
  if c.ENABLE_LOG then
    match includeBlock c with
    | .unsupported msg => .stopped msg
    | .headers h => .passed (some h) ((dispatchBlock c).map Build.withLog)
  else
    .passed none (some .logOff)

/-- The dispatch block written for a set of backend headers. -/
def Headers.backend : Headers → Backend
  | .log4cxx => .log4cxx
  | .windows => .winNative
  | .qt => .qtPort

/-- A fixed environment for evaluating examples. -/
def sampleEnv : Env where
  clock := fun n => 1000 + n
  threadName := "main"
  pushResult := fun _ => true
  strerror := fun e => if e = 2 then "No such file or directory" else "Unknown error"
  isTraceEnabled := fun _ => true

/-- A fixed place of use for evaluating examples. -/
def sampleSite : CallSite := ⟨"a.cc", 7, "f"⟩

/-- A configuration with `ENABLE_LOG` and `LOG4CXX_LOGGER` defined and
`WIN_NATIVE`, `QT_PORT`, `OS_POSIX` undefined. -/
def log4cxxWithoutPosix : Config := ⟨true, true, false, false, false⟩

/-- A configuration with `ENABLE_LOG`, `WIN_NATIVE` and `OS_POSIX` defined and
`LOG4CXX_LOGGER`, `QT_PORT` undefined. -/
def winNativeOnPosix : Config := ⟨true, false, true, false, true⟩

/-- A process state with logs disabled and nothing recorded yet. -/
def logsOff : World := ⟨false, 0, 0, []⟩

/-- A process state with logs enabled, `errno` 2 and nothing recorded. -/
def logsOn : World := ⟨true, 2, 0, []⟩

/-- Integer level argument of the call `LOG4CXX_<L>` of block `b` makes. -/
def passedCode (b : Backend) (L : LogLevel) (env : Env) (site : CallSite)
    (loggerPtr : String) (logEvent : List Value) (w : World) : Option Nat :=
  lastCode (LOG4CXX b L env site loggerPtr logEvent w)

/-! ## Streaming lemmas -/

theorem stream_eq_append (acc : String) (vs : List Value) :
    stream acc vs = acc ++ concatRenderings vs := by
  induction vs generalizing acc with
  | nil => simp [stream, concatRenderings]
  | cons v vs ih =>
    have h := ih (insert acc v)
    simp only [stream, List.foldl_cons] at h ⊢
    rw [h]
    simp [insert, concatRenderings, String.append_assoc]

theorem stream_empty (vs : List Value) :
    stream "" vs = concatRenderings vs := by
  rw [stream_eq_append]
  simp

theorem concatRenderings_append (xs ys : List Value) :
    concatRenderings (xs ++ ys) = concatRenderings xs ++ concatRenderings ys := by
  induction xs with
  | nil => simp [concatRenderings]
  | cons x xs ih => simp [concatRenderings, ih, String.append_assoc]

theorem stream_located (f g : String) (n : Nat) (vs : List Value) :
    stream "" ([.str f, .str ":", .uint n, .str " ", .str g, .str ": "] ++ vs)
      = f ++ ":" ++ toString n ++ " " ++ g ++ ": " ++ concatRenderings vs := by
  rw [stream_empty, concatRenderings_append]
  simp [concatRenderings, Value.render, String.append_assoc]

theorem LOG_WITH_LEVEL_EXT_eq (env : Env) (loggerPtr : String) (logLevel : Nat)
    (logEvent : List Value) (line : Nat) (file function : String) (w : World) :
    WinNative.LOG_WITH_LEVEL_EXT env loggerPtr logLevel logEvent line file
        function w
      = { w with
          ticks := w.ticks + 1
          calls := w.calls ++ [.win loggerPtr logLevel (env.clock w.ticks)
            (file ++ ":" ++ toString line ++ " " ++ function ++ ": "
              ++ concatRenderings logEvent)] } := by
  simp only [WinNative.LOG_WITH_LEVEL_EXT, stream_located, push_log, time_now]

theorem LOG_WITH_LEVEL_win_eq (env : Env) (site : CallSite) (loggerPtr : String)
    (logLevel : Nat) (logEvent : List Value) (line : Nat) (w : World) :
    WinNative.LOG_WITH_LEVEL env site loggerPtr logLevel logEvent line w
      = { w with
          ticks := w.ticks + 1
          calls := w.calls ++ [.win loggerPtr logLevel (env.clock w.ticks)
            (site.file ++ ":" ++ toString line ++ " " ++ site.function ++ ": "
              ++ concatRenderings logEvent)] } := by
  simp only [WinNative.LOG_WITH_LEVEL, stream_located, push_log, time_now]

theorem LOG4CXX_log4cxx_eq (L : LogLevel) (env : Env) (site : CallSite)
    (loggerPtr : String) (logEvent : List Value) (w : World) :
    LOG4CXX .log4cxx L env site loggerPtr logEvent w
      = { w with
          ticks := w.ticks + 1
          calls := w.calls ++ [.log4cxx loggerPtr L.symbol
            (concatRenderings logEvent) (env.clock w.ticks) site
            env.threadName] } := by
  cases L <;>
    simp only [LOG4CXX, Log4cxx.LOG4CXX_TRACE, Log4cxx.LOG4CXX_DEBUG,
      Log4cxx.LOG4CXX_INFO, Log4cxx.LOG4CXX_WARN, Log4cxx.LOG4CXX_ERROR,
      Log4cxx.LOG4CXX_FATAL, Log4cxx.LOG_WITH_LEVEL, stream_empty, push_log,
      time_now, LogLevel.symbol]

theorem rank_values :
    LogLevel.TRACE.rank = 0 ∧ LogLevel.DEBUG.rank = 1 ∧ LogLevel.INFO.rank = 2
      ∧ LogLevel.WARN.rank = 3 ∧ LogLevel.ERROR.rank = 4
      ∧ LogLevel.FATAL.rank = 5 := by
  decide

theorem LOG4CXX_win_eq (L : LogLevel) (env : Env) (site : CallSite)
    (loggerPtr : String) (logEvent : List Value) (w : World) :
    LOG4CXX .winNative L env site loggerPtr logEvent w
      = { w with
          ticks := w.ticks + 1
          calls := w.calls ++ [.win loggerPtr L.rank (env.clock w.ticks)
            (locationTag .winNative site ++ concatRenderings logEvent)] } := by
  obtain ⟨h0, h1, h2, h3, h4, h5⟩ := rank_values
  cases L <;>
    simp only [LOG4CXX, WinNative.LOG4CXX_TRACE, WinNative.LOG4CXX_DEBUG,
      WinNative.LOG4CXX_INFO, WinNative.LOG4CXX_WARN, WinNative.LOG4CXX_ERROR,
      WinNative.LOG4CXX_FATAL, LOG_WITH_LEVEL_win_eq, locationTag, h0, h1, h2,
      h3, h4, h5]

theorem LOG4CXX_qt_eq (L : LogLevel) (env : Env) (site : CallSite)
    (loggerPtr : String) (logEvent : List Value) (w : World) :
    LOG4CXX .qtPort L env site loggerPtr logEvent w
      = { w with
          calls := w.calls ++ [.qt loggerPtr L.rank
            (concatRenderings logEvent) site.file site.line] } := by
  obtain ⟨h0, h1, h2, h3, h4, h5⟩ := rank_values
  cases L <;>
    simp only [LOG4CXX, QtPort.LOG4CXX_TRACE, QtPort.LOG4CXX_DEBUG,
      QtPort.LOG4CXX_INFO, QtPort.LOG4CXX_WARN, QtPort.LOG4CXX_ERROR,
      QtPort.LOG4CXX_FATAL, QtPort.LOG_WITH_LEVEL, stream_empty, push_log, h0,
      h1, h2, h3, h4, h5]

theorem named_symbol (L : LogLevel) : L.symbol.named = L := by
  cases L <;> rfl

theorem enumeration_rank (L : LogLevel) :
    LogLevel.enumeration.get? L.rank = some L := by
  cases L <;> decide

/-- The one call `LOG4CXX_<L>` of block `b` makes, spelled out. -/
theorem LOG4CXX_calls (b : Backend) (L : LogLevel) (env : Env) (site : CallSite)
    (loggerPtr : String) (logEvent : List Value) (w : World) :
    ∃ c, (LOG4CXX b L env site loggerPtr logEvent w).calls = w.calls ++ [c]
      ∧ c.logger = loggerPtr ∧ c.named = some L
      ∧ c.entry = locationTag b site ++ concatRenderings logEvent := by
  cases b
  · rw [LOG4CXX_log4cxx_eq]
    exact ⟨_, rfl, rfl, by simp [PushCall.named, named_symbol],
      by simp [PushCall.entry, locationTag]⟩
  · rw [LOG4CXX_win_eq]
    exact ⟨_, rfl, rfl, enumeration_rank L, rfl⟩
  · rw [LOG4CXX_qt_eq]
    exact ⟨_, rfl, rfl, enumeration_rank L, by simp [PushCall.entry, locationTag]⟩

/-- The level definitions never read the enabled flag. -/
theorem LOG4CXX_flag_blind (b : Backend) (L : LogLevel) (env : Env)
    (site : CallSite) (loggerPtr : String) (logEvent : List Value) (w : World)
    (state : Bool) :
    (LOG4CXX b L env site loggerPtr logEvent (set_logs_enabled state w)).calls
      = (LOG4CXX b L env site loggerPtr logEvent w).calls := by
  cases b
  · simp only [LOG4CXX_log4cxx_eq, set_logs_enabled]
  · simp only [LOG4CXX_win_eq, set_logs_enabled]
  · simp only [LOG4CXX_qt_eq, set_logs_enabled]

theorem concatRenderings_single (s : String) :
    concatRenderings [.str s] = s := by
  simp [concatRenderings, Value.render]

theorem concatRenderings_errno (m : List Value) (e : Int) (d : String) :
    concatRenderings
        (m ++ [.str ", error code ", .int e, .str " (", .str d, .str ")"])
      = concatRenderings m ++ ", error code " ++ toString e ++ " (" ++ d
        ++ ")" := by
  rw [concatRenderings_append]
  simp [concatRenderings, Value.render, String.append_assoc]

/-- A level definition depends on its event only through the rendering. -/
theorem LOG4CXX_congr (b : Backend) (L : LogLevel) (env : Env) (site : CallSite)
    (loggerPtr : String) (xs ys : List Value) (w : World)
    (h : concatRenderings xs = concatRenderings ys) :
    LOG4CXX b L env site loggerPtr xs w = LOG4CXX b L env site loggerPtr ys w := by
  cases b
  · rw [LOG4CXX_log4cxx_eq, LOG4CXX_log4cxx_eq, h]
  · rw [LOG4CXX_win_eq, LOG4CXX_win_eq, h]
  · rw [LOG4CXX_qt_eq, LOG4CXX_qt_eq, h]

theorem LOG4CXX_enabled (b : Backend) (L : LogLevel) (env : Env)
    (site : CallSite) (loggerPtr : String) (logEvent : List Value) (w : World) :
    logs_enabled (LOG4CXX b L env site loggerPtr logEvent w) = logs_enabled w := by
  cases b
  · rw [LOG4CXX_log4cxx_eq]; rfl
  · rw [LOG4CXX_win_eq]; rfl
  · rw [LOG4CXX_qt_eq]; rfl

theorem LOG4CXX_result_blind (b : Backend) (L : LogLevel) (env : Env)
    (site : CallSite) (loggerPtr : String) (logEvent : List Value) (w : World)
    (r₁ r₂ : PushCall → Bool) :
    LOG4CXX b L { env with pushResult := r₁ } site loggerPtr logEvent w
      = LOG4CXX b L { env with pushResult := r₂ } site loggerPtr logEvent w := by
  cases b
  · rw [LOG4CXX_log4cxx_eq, LOG4CXX_log4cxx_eq]
  · rw [LOG4CXX_win_eq, LOG4CXX_win_eq]
  · rw [LOG4CXX_qt_eq, LOG4CXX_qt_eq]

theorem passedCode_win (L : LogLevel) (env : Env) (site : CallSite)
    (loggerPtr : String) (logEvent : List Value) (w : World) :
    passedCode .winNative L env site loggerPtr logEvent w = some L.rank := by
  simp [passedCode, lastCode, LOG4CXX_win_eq, PushCall.code]

theorem passedCode_qt (L : LogLevel) (env : Env) (site : CallSite)
    (loggerPtr : String) (logEvent : List Value) (w : World) :
    passedCode .qtPort L env site loggerPtr logEvent w = some L.rank := by
  simp [passedCode, lastCode, LOG4CXX_qt_eq, PushCall.code]

theorem rank_injective (L₁ L₂ : LogLevel) (h : L₁.rank = L₂.rank) : L₁ = L₂ := by
  revert h
  cases L₁ <;> cases L₂ <;> decide

theorem rank_le_five (L : LogLevel) : L.rank ≤ 5 := by
  cases L <;> decide

/-- A body only ever adds calls to the record. -/
theorem execBody_appends (env : Env) (b : Build) (body : List Stmt) (w : World) :
    ∃ evs, (execBody env b body w).2.calls = w.calls ++ evs := by
  induction body generalizing w with
  | nil => exact ⟨[], by simp [execBody]⟩
  | cons s rest ih =>
    cases s with
    | log L site loggerPtr logEvent =>
      obtain ⟨evs, h⟩ := ih (b.LOG4CXX L env site loggerPtr logEvent w)
      cases b with
      | withLog k =>
        obtain ⟨c, hc, -⟩ := LOG4CXX_calls k L env site loggerPtr logEvent w
        refine ⟨c :: evs, ?_⟩
        simp only [execBody]
        rw [h]
        simp only [Build.LOG4CXX]
        rw [hc]
        simp
      | logOff =>
        refine ⟨evs, ?_⟩
        simp only [execBody]
        rw [h]
        cases L <;> rfl
    | setEnabled state =>
      obtain ⟨evs, h⟩ := ih (set_logs_enabled state w)
      exact ⟨evs, by simp only [execBody]; rw [h]; rfl⟩
    | ret => exact ⟨[], by simp [execBody]⟩
    | throw => exact ⟨[], by simp [execBody]⟩

/-- When the two chains are keyed consistently, the dispatch block is the one
written for the included headers. -/
theorem dispatch_follows_headers (c : Config) (hdr : Headers)
    (hkey : c.OS_POSIX = c.LOG4CXX_LOGGER)
    (hinc : includeBlock c = .headers hdr) :
    dispatchBlock c = some hdr.backend := by
  obtain ⟨e, l, wn, q, p⟩ := c
  simp only at hkey
  subst hkey
  revert hinc
  cases e <;> cases p <;> cases wn <;> cases q <;> cases hdr <;> decide

/-! ## Claims -/

/-- C1, refuted as stated: with `logs_enabled()` false, `LOG4CXX_INFO` of each
of the three dispatch blocks still adds one `push_log` call to the record, so
the record is not left unchanged. -/
theorem disabled_call_recorded :
    logs_enabled logsOff = false ∧ logsOff.calls = [] ∧
    (LOG4CXX .log4cxx .INFO sampleEnv sampleSite "Main" [.str "x"]
        logsOff).calls
      = [.log4cxx "Main" .getInfo "x" 1000 sampleSite "main"] ∧
    (LOG4CXX .winNative .INFO sampleEnv sampleSite "Main" [.str "x"]
        logsOff).calls
      = [.win "Main" 2 1000 "a.cc:7 f: x"] ∧
    (LOG4CXX .qtPort .INFO sampleEnv sampleSite "Main" [.str "x"]
        logsOff).calls
      = [.qt "Main" 2 "x" "a.cc" 7] ∧
    ¬ (∀ (b : Backend) (L : LogLevel) (env : Env) (site : CallSite)
        (loggerPtr : String) (logEvent : List Value) (w : World),
        logs_enabled w = false →
        (LOG4CXX b L env site loggerPtr logEvent w).calls = w.calls) := by
  refine ⟨by decide, by decide, by decide, by decide, by decide, ?_⟩
  intro h
  have h1 := h .qtPort .INFO sampleEnv sampleSite "Main" [.str "x"] logsOff
    (by decide)
  revert h1
  decide

/-- C1, amended: when `logs_enabled()` is false, `LOG4CXX_<L>` of every
dispatch block still makes exactly one `push_log` call, the same call it
makes with logs enabled, and leaves the flag as it was: the level
definitions never consult `logs_enabled()`. -/
theorem disabled_one_call (b : Backend) (L : LogLevel) (env : Env)
    (site : CallSite) (loggerPtr : String) (logEvent : List Value) (w : World)
    (h : logs_enabled w = false) :
    ∃ c, (LOG4CXX b L env site loggerPtr logEvent w).calls = w.calls ++ [c]
      ∧ (LOG4CXX b L env site loggerPtr logEvent
          (set_logs_enabled true w)).calls = w.calls ++ [c]
      ∧ c.logger = loggerPtr ∧ c.named = some L
      ∧ logs_enabled (LOG4CXX b L env site loggerPtr logEvent w) = false := by
  obtain ⟨c, hc, hl, hn, -⟩ := LOG4CXX_calls b L env site loggerPtr logEvent w
  refine ⟨c, hc, ?_, hl, hn, ?_⟩
  · rw [LOG4CXX_flag_blind, hc]
  · rw [LOG4CXX_enabled, h]

/-- Witness for C1 amended: the state `logsOff` and the
`QT_PORT` definition `LOG4CXX_INFO`. -/
theorem disabled_one_call_witness :
    logs_enabled logsOff = false ∧
    ∃ c, (LOG4CXX .qtPort .INFO sampleEnv sampleSite "Main" [.str "x"]
          logsOff).calls = logsOff.calls ++ [c]
      ∧ (LOG4CXX .qtPort .INFO sampleEnv sampleSite "Main" [.str "x"]
          (set_logs_enabled true logsOff)).calls = logsOff.calls ++ [c]
      ∧ c.logger = "Main" ∧ c.named = some .INFO
      ∧ logs_enabled (LOG4CXX .qtPort .INFO sampleEnv sampleSite "Main"
          [.str "x"] logsOff) = false :=
  ⟨by decide, disabled_one_call .qtPort .INFO sampleEnv sampleSite "Main"
    [.str "x"] logsOff (by decide)⟩

/-- C2, refuted as stated: in the `WIN_NATIVE` block `LOG4CXX_INFO` with the
string "connect" and the integer 200 hands `push_log` the entry
"a.cc:7 f: connect200", which is not the bare concatenation "connect200". -/
theorem win_entry_not_bare_concat :
    concatRenderings [.str "connect", .int 200] = "connect200" ∧
    (LOG4CXX .winNative .INFO sampleEnv sampleSite "Main"
        [.str "connect", .int 200] logsOn).calls
      = [.win "Main" 2 1000 "a.cc:7 f: connect200"] ∧
    (LOG4CXX .winNative .INFO sampleEnv sampleSite "Main"
        [.str "connect", .int 200] logsOn).calls.map PushCall.entry
      ≠ [concatRenderings [.str "connect", .int 200]] := by
  refine ⟨by decide, by decide, by decide⟩

/-- C2, amended: in the log4cxx and `QT_PORT` blocks the entry handed to
`push_log` by `LOG4CXX_<L>` is exactly the concatenation of the renderings of
the values in order; in the `WIN_NATIVE` block it is the text
`file:line function: ` followed by exactly that concatenation.  INFO with
"connect" and 200 passes "connect200" (with the location text in front under
`WIN_NATIVE`) at level INFO. -/
theorem entry_is_concat_after_location (L : LogLevel) (env : Env)
    (site : CallSite) (loggerPtr : String) (logEvent : List Value) (w : World) :
    (∃ c, (LOG4CXX .log4cxx L env site loggerPtr logEvent w).calls
          = w.calls ++ [c]
        ∧ c.entry = concatRenderings logEvent ∧ c.named = some L) ∧
    (∃ c, (LOG4CXX .qtPort L env site loggerPtr logEvent w).calls
          = w.calls ++ [c]
        ∧ c.entry = concatRenderings logEvent ∧ c.named = some L) ∧
    (∃ c, (LOG4CXX .winNative L env site loggerPtr logEvent w).calls
          = w.calls ++ [c]
        ∧ c.entry = site.file ++ ":" ++ toString site.line ++ " "
            ++ site.function ++ ": " ++ concatRenderings logEvent
        ∧ c.named = some L) ∧
    concatRenderings [.str "connect", .int 200] = "connect200" := by
  refine ⟨?_, ?_, ?_, by decide⟩
  · obtain ⟨c, hc, -, hn, he⟩ :=
      LOG4CXX_calls .log4cxx L env site loggerPtr logEvent w
    exact ⟨c, hc, by rw [he]; simp [locationTag], hn⟩
  · obtain ⟨c, hc, -, hn, he⟩ :=
      LOG4CXX_calls .qtPort L env site loggerPtr logEvent w
    exact ⟨c, hc, by rw [he]; simp [locationTag], hn⟩
  · obtain ⟨c, hc, -, hn, he⟩ :=
      LOG4CXX_calls .winNative L env site loggerPtr logEvent w
    exact ⟨c, hc, by rw [he]; rfl, hn⟩

/-- C3: in the `WIN_NATIVE` block, a scope that declares one `AutoTrace`
object records exactly the "Enter" call, then the calls of its body, then the
"Exit" call, whatever way the body leaves (normal end, early return, throw).
Both calls are made on the given logger at level 0 and carry the file, line
and function the object was constructed with. -/
theorem autotrace_enter_body_exit (env : Env) (loggerPtr file function : String)
    (line : Nat) (body : List Stmt) (w : World) :
    ∃ (evs : List PushCall) (tExit : Nat),
      (WinNative.AutoTrace.ctor env loggerPtr line file function w).2.calls
        = w.calls ++ [.win loggerPtr 0 (env.clock w.ticks)
            (file ++ ":" ++ toString line ++ " " ++ function ++ ": "
              ++ "Enter")]
      ∧ (execBody env (.withLog .winNative) body
          (WinNative.AutoTrace.ctor env loggerPtr line file function w).2).2.calls
        = (WinNative.AutoTrace.ctor env loggerPtr line file function w).2.calls
          ++ evs
      ∧ (runScope env (.withLog .winNative)
          (WinNative.LOG4CXX_AUTO_TRACE env ⟨file, line, function⟩ loggerPtr)
          body w).2.calls
        = w.calls
          ++ [.win loggerPtr 0 (env.clock w.ticks)
            (file ++ ":" ++ toString line ++ " " ++ function ++ ": "
              ++ "Enter")]
          ++ evs
          ++ [.win loggerPtr 0 tExit
            (file ++ ":" ++ toString line ++ " " ++ function ++ ": "
              ++ "Exit")]
      ∧ (runScope env (.withLog .winNative)
          (WinNative.LOG4CXX_AUTO_TRACE env ⟨file, line, function⟩ loggerPtr)
          body w).1
        = (execBody env (.withLog .winNative) body
          (WinNative.AutoTrace.ctor env loggerPtr line file function w).2).1 := by
  obtain ⟨evs, hev⟩ := execBody_appends env (.withLog .winNative) body
    (WinNative.AutoTrace.ctor env loggerPtr line file function w).2
  have hctor :
      (WinNative.AutoTrace.ctor env loggerPtr line file function w).2.calls
        = w.calls ++ [.win loggerPtr 0 (env.clock w.ticks)
            (file ++ ":" ++ toString line ++ " " ++ function ++ ": "
              ++ "Enter")] := by
    simp only [WinNative.AutoTrace.ctor, LOG_WITH_LEVEL_EXT_eq,
      concatRenderings_single]
  refine ⟨evs, env.clock (execBody env (.withLog .winNative) body
    (WinNative.AutoTrace.ctor env loggerPtr line file function w).2).2.ticks,
    hctor, hev, ?_, rfl⟩
  simp only [runScope, WinNative.LOG4CXX_AUTO_TRACE, leaveScope,
    WinNative.AutoTrace.dtor, LOG_WITH_LEVEL_EXT_eq, concatRenderings_single]
  rw [hev, hctor]
  simp [WinNative.AutoTrace.ctor]

/-- C4: `LOG4CXX_ERROR_WITH_ERRNO` emits at level ERROR, and
`LOG4CXX_WARN_WITH_ERRNO` at level WARN, an event whose rendering is the
message followed by ", error code ", the decimal numeral of the current
`errno`, " (", `strerror` of that same `errno`, and ")". -/
theorem errno_variants_render (b : Backend) (env : Env) (site : CallSite)
    (loggerPtr : String) (message : List Value) (w : World) :
    LOG4CXX_ERROR_WITH_ERRNO b env site loggerPtr message w
      = LOG4CXX b .ERROR env site loggerPtr
          [.str (concatRenderings message ++ ", error code "
            ++ toString w.errno ++ " (" ++ env.strerror w.errno ++ ")")] w
    ∧ LOG4CXX_WARN_WITH_ERRNO b env site loggerPtr message w
      = LOG4CXX b .WARN env site loggerPtr
          [.str (concatRenderings message ++ ", error code "
            ++ toString w.errno ++ " (" ++ env.strerror w.errno ++ ")")] w
    ∧ (∃ c, (LOG4CXX_ERROR_WITH_ERRNO b env site loggerPtr message w).calls
          = w.calls ++ [c]
        ∧ c.named = some .ERROR
        ∧ c.entry = locationTag b site ++ (concatRenderings message
            ++ ", error code " ++ toString w.errno ++ " ("
            ++ env.strerror w.errno ++ ")"))
    ∧ (∃ c, (LOG4CXX_WARN_WITH_ERRNO b env site loggerPtr message w).calls
          = w.calls ++ [c]
        ∧ c.named = some .WARN
        ∧ c.entry = locationTag b site ++ (concatRenderings message
            ++ ", error code " ++ toString w.errno ++ " ("
            ++ env.strerror w.errno ++ ")")) := by
  refine ⟨?_, ?_, ?_, ?_⟩
  · exact LOG4CXX_congr b .ERROR env site loggerPtr _ _ w
      (by rw [concatRenderings_errno, concatRenderings_single])
  · exact LOG4CXX_congr b .WARN env site loggerPtr _ _ w
      (by rw [concatRenderings_errno, concatRenderings_single])
  · obtain ⟨c, hc, -, hn, he⟩ := LOG4CXX_calls b .ERROR env site loggerPtr
      (message ++ [.str ", error code ", .int w.errno, .str " (",
        .str (env.strerror w.errno), .str ")"]) w
    exact ⟨c, hc, hn, by rw [he, concatRenderings_errno]⟩
  · obtain ⟨c, hc, -, hn, he⟩ := LOG4CXX_calls b .WARN env site loggerPtr
      (message ++ [.str ", error code ", .int w.errno, .str " (",
        .str (env.strerror w.errno), .str ")"]) w
    exact ⟨c, hc, hn, by rw [he, concatRenderings_errno]⟩

/-- C5: in the `WIN_NATIVE` and `QT_PORT` blocks the level definitions pass
the codes TRACE=0, DEBUG=1, INFO=2, WARN=3, ERROR=4, FATAL=5 to `push_log`;
the two blocks agree, the mapping is injective, strictly increasing along the
order of the levels, and stays within 0..5. -/
theorem integer_level_codes (env : Env) (site : CallSite) (loggerPtr : String)
    (logEvent : List Value) (w : World) :
    (passedCode .winNative .TRACE env site loggerPtr logEvent w = some 0
      ∧ passedCode .winNative .DEBUG env site loggerPtr logEvent w = some 1
      ∧ passedCode .winNative .INFO env site loggerPtr logEvent w = some 2
      ∧ passedCode .winNative .WARN env site loggerPtr logEvent w = some 3
      ∧ passedCode .winNative .ERROR env site loggerPtr logEvent w = some 4
      ∧ passedCode .winNative .FATAL env site loggerPtr logEvent w = some 5)
    ∧ (∀ L, passedCode .qtPort L env site loggerPtr logEvent w
        = passedCode .winNative L env site loggerPtr logEvent w)
    ∧ (∀ L₁ L₂, passedCode .winNative L₁ env site loggerPtr logEvent w
          = passedCode .winNative L₂ env site loggerPtr logEvent w → L₁ = L₂)
    ∧ (∀ L₁ L₂, L₁.rank < L₂.rank →
        ∃ c₁ c₂, passedCode .winNative L₁ env site loggerPtr logEvent w = some c₁
          ∧ passedCode .winNative L₂ env site loggerPtr logEvent w = some c₂
          ∧ c₁ < c₂)
    ∧ (∀ L, ∃ c, passedCode .winNative L env site loggerPtr logEvent w = some c
        ∧ c ≤ 5) := by
  obtain ⟨h0, h1, h2, h3, h4, h5⟩ := rank_values
  refine ⟨⟨?_, ?_, ?_, ?_, ?_, ?_⟩, ?_, ?_, ?_, ?_⟩
  · rw [passedCode_win, h0]
  · rw [passedCode_win, h1]
  · rw [passedCode_win, h2]
  · rw [passedCode_win, h3]
  · rw [passedCode_win, h4]
  · rw [passedCode_win, h5]
  · intro L
    rw [passedCode_win, passedCode_qt]
  · intro L₁ L₂ h
    rw [passedCode_win, passedCode_win] at h
    exact rank_injective L₁ L₂ (Option.some.inj h)
  · intro L₁ L₂ h
    exact ⟨L₁.rank, L₂.rank, passedCode_win .., passedCode_win .., h⟩
  · intro L
    exact ⟨L.rank, passedCode_win .., rank_le_five L⟩

/-- Witness for C5: DEBUG is below ERROR, and the codes passed for them in the
`WIN_NATIVE` block are distinct and increasing. -/
theorem integer_level_codes_witness :
    LogLevel.DEBUG.rank < LogLevel.ERROR.rank ∧
    ∃ c₁ c₂, passedCode .winNative .DEBUG sampleEnv sampleSite "Main" [] logsOn
        = some c₁
      ∧ passedCode .winNative .ERROR sampleEnv sampleSite "Main" [] logsOn
        = some c₂
      ∧ c₁ < c₂ :=
  ⟨by decide,
    (integer_level_codes sampleEnv sampleSite "Main" [] logsOn).2.2.2.1
      .DEBUG .ERROR (by decide)⟩

/-- C6, evaluated at the failing configurations: with `LOG4CXX_LOGGER` defined
and `OS_POSIX` undefined the header passes the `#error` check and includes the
log4cxx headers but takes no group of the dispatch chain; with `WIN_NATIVE`
and `OS_POSIX` defined and `LOG4CXX_LOGGER` undefined it includes `windows.h`
and takes the log4cxx dispatch block. -/
theorem dispatch_keyed_on_other_name :
    preprocess log4cxxWithoutPosix = .passed (some .log4cxx) none ∧
    includeBlock log4cxxWithoutPosix = .headers .log4cxx ∧
    dispatchBlock log4cxxWithoutPosix = none ∧
    preprocess winNativeOnPosix
      = .passed (some .windows) (some (.withLog .log4cxx)) ∧
    Headers.backend .windows ≠ Backend.log4cxx := by
  decide

/-- C7, evaluated at the failing build: in the `QT_PORT` block
`LOG4CXX_IS_TRACE_ENABLED(handle)` expands to nothing, so it yields no
boolean; the log4cxx block yields the logger's answer, the `WIN_NATIVE` block
`true`, and the build without `ENABLE_LOG` yields `false`. -/
theorem trace_query_empty_in_qt (env : Env) (handle : String) :
    LOG4CXX_IS_TRACE_ENABLED env (.withLog .qtPort) handle = none ∧
    LOG4CXX_IS_TRACE_ENABLED env (.withLog .log4cxx) handle
      = some (env.isTraceEnabled handle) ∧
    LOG4CXX_IS_TRACE_ENABLED env (.withLog .winNative) handle = some true ∧
    LOG4CXX_IS_TRACE_ENABLED env .logOff handle = some false :=
  ⟨rfl, rfl, rfl, rfl⟩

/-- C8: in the `QT_PORT` block and without `ENABLE_LOG`, a scope that starts
with `LOG4CXX_AUTO_TRACE` or `LOG4CXX_AUTO_TRACE_WITH_NAME_SPECIFIED` leaves
exactly the state and the recorded calls of its body alone: no "Enter" and no
"Exit" call is added. -/
theorem autotrace_expands_to_nothing (env : Env) (loggerPtr auto_trace : String)
    (body : List Stmt) (w : World) :
    runScope env (.withLog .qtPort) (QtPort.LOG4CXX_AUTO_TRACE loggerPtr) body w
      = execBody env (.withLog .qtPort) body w
    ∧ runScope env (.withLog .qtPort)
        (QtPort.LOG4CXX_AUTO_TRACE_WITH_NAME_SPECIFIED loggerPtr auto_trace)
        body w
      = execBody env (.withLog .qtPort) body w
    ∧ runScope env .logOff (LogOff.LOG4CXX_AUTO_TRACE loggerPtr) body w
      = execBody env .logOff body w
    ∧ runScope env .logOff
        (LogOff.LOG4CXX_AUTO_TRACE_WITH_NAME_SPECIFIED loggerPtr auto_trace)
        body w
      = execBody env .logOff body w :=
  ⟨rfl, rfl, rfl, rfl⟩

/-- C9: with logging enabled, one use of `LOG4CXX_<L>` in any dispatch block
makes exactly one `push_log` call, on the caller's logger and at level `L`;
the state afterwards is the same whatever boolean `push_log` answers, and the
flag is still set. -/
theorem level_call_once_result_dropped (b : Backend) (L : LogLevel) (env : Env)
    (site : CallSite) (loggerPtr : String) (logEvent : List Value) (w : World)
    (r₁ r₂ : PushCall → Bool) (h : logs_enabled w = true) :
    (∃ c, (LOG4CXX b L env site loggerPtr logEvent w).calls = w.calls ++ [c]
      ∧ c.logger = loggerPtr ∧ c.named = some L)
    ∧ LOG4CXX b L { env with pushResult := r₁ } site loggerPtr logEvent w
      = LOG4CXX b L { env with pushResult := r₂ } site loggerPtr logEvent w
    ∧ logs_enabled (LOG4CXX b L env site loggerPtr logEvent w) = true := by
  obtain ⟨c, hc, hl, hn, -⟩ := LOG4CXX_calls b L env site loggerPtr logEvent w
  exact ⟨⟨c, hc, hl, hn⟩, LOG4CXX_result_blind b L env site loggerPtr logEvent w
    r₁ r₂, by rw [LOG4CXX_enabled, h]⟩

/-- Witness for C9: `LOG4CXX_WARN` of the log4cxx block with logs enabled,
against a `push_log` that answers true and one that answers false. -/
theorem level_call_once_result_dropped_witness :
    logs_enabled logsOn = true ∧
    ((∃ c, (LOG4CXX .log4cxx .WARN sampleEnv sampleSite "Main" [.str "x"]
          logsOn).calls = logsOn.calls ++ [c]
        ∧ c.logger = "Main" ∧ c.named = some .WARN)
      ∧ LOG4CXX .log4cxx .WARN
          { sampleEnv with pushResult := fun _ => true } sampleSite "Main"
          [.str "x"] logsOn
        = LOG4CXX .log4cxx .WARN
          { sampleEnv with pushResult := fun _ => false } sampleSite "Main"
          [.str "x"] logsOn
      ∧ logs_enabled (LOG4CXX .log4cxx .WARN sampleEnv sampleSite "Main"
          [.str "x"] logsOn) = true) :=
  ⟨by decide, level_call_once_result_dropped .log4cxx .WARN sampleEnv sampleSite
    "Main" [.str "x"] logsOn (fun _ => true) (fun _ => false) (by decide)⟩

/-- C10: in the `WIN_NATIVE` block both `LOG_WITH_LEVEL`, used at file `f`,
line `n`, function `g`, and `LOG_WITH_LEVEL_EXT`, given `n`, `f`, `g`, pass the
entry `f ++ ":" ++ decimal n ++ " " ++ g ++ ": " ++ concat vs` to `push_log`,
and so the two make the same call and leave the same state. -/
theorem win_entry_layout (env : Env) (f g : String) (n : Nat)
    (loggerPtr : String) (logLevel : Nat) (vs : List Value) (w : World) :
    WinNative.LOG_WITH_LEVEL env ⟨f, n, g⟩ loggerPtr logLevel vs n w
      = { w with
          ticks := w.ticks + 1
          calls := w.calls ++ [.win loggerPtr logLevel (env.clock w.ticks)
            (f ++ ":" ++ toString n ++ " " ++ g ++ ": "
              ++ concatRenderings vs)] }
    ∧ WinNative.LOG_WITH_LEVEL_EXT env loggerPtr logLevel vs n f g w
      = { w with
          ticks := w.ticks + 1
          calls := w.calls ++ [.win loggerPtr logLevel (env.clock w.ticks)
            (f ++ ":" ++ toString n ++ " " ++ g ++ ": "
              ++ concatRenderings vs)] }
    ∧ WinNative.LOG_WITH_LEVEL env ⟨f, n, g⟩ loggerPtr logLevel vs n w
      = WinNative.LOG_WITH_LEVEL_EXT env loggerPtr logLevel vs n f g w := by
  refine ⟨?_, ?_, ?_⟩
  · rw [LOG_WITH_LEVEL_win_eq]
  · rw [LOG_WITH_LEVEL_EXT_eq]
  · rw [LOG_WITH_LEVEL_win_eq, LOG_WITH_LEVEL_EXT_eq]

end logger
